import Mathlib

/-!
# gcloudbot: a shallow embedding of the provisioning wizard

Go `string` values are embedded as Lean `String`s (sequences of Unicode code
points), Go `int` as `Int`, Go `error` as `Option String` (`none` is `nil`,
`some m` is an error whose `Error()` text is `m`).

The interactive functions read through the package-level function variable
`process.ReadInput`; they are embedded over `inputs`, the strings that
successive calls of that variable return (`""` once the input is exhausted,
which is what both the scanner at end of input and the reader used by the
tests give).  The reader of read.go itself is `ReadInput`.  The Command Proxy
is the function variable `process.ExecuteGCloudCommand`; the external tool
behind it is a parameter.  Random draws are parameters.  Text written to
standard output and the pauses of `time.Sleep` are not modelled.
-/

namespace GCloudBot

/-! ## Go library functions used by the program -/

/-- Go `unicode.IsSpace`: the Latin-1 white space characters and the code points
with the Unicode White_Space property. -/
def isSpace (c : Char) : Bool :=
  let n := c.toNat
  n == 0x09 || n == 0x0A || n == 0x0B || n == 0x0C || n == 0x0D || n == 0x20 ||
  n == 0x85 || n == 0xA0 || n == 0x1680 || (0x2000 ≤ n && n ≤ 0x200A) ||
  n == 0x2028 || n == 0x2029 || n == 0x202F || n == 0x205F || n == 0x3000

/-- Go `strings.TrimSpace`: drop leading and trailing white space. -/
def TrimSpace (s : String) : String :=
  ⟨((s.data.dropWhile isSpace).reverse.dropWhile isSpace).reverse⟩

/-- Lower case of an ASCII rune: `A`..`Z` are moved to `a`..`z`. -/
def lowerASCII (c : Char) : Char :=
  if 65 ≤ c.toNat ∧ c.toNat ≤ 90 then Char.ofNat (c.toNat + 32) else c

/-- Go `unicode.ToLower` on one rune.  ASCII runes are handled as Go does;
the case table for runes above U+007F is not part of the repository and is
the parameter `uni`. -/
def toLowerRune (uni : Char → Char) (c : Char) : Char :=
  if c.toNat < 128 then lowerASCII c else uni c

/-- Go `strings.ToLower`. -/
def ToLower (uni : Char → Char) (s : String) : String :=
  ⟨s.data.map (toLowerRune uni)⟩

/-- Go `strings.ReplaceAll(s, " ", "-")`: both patterns are one character long,
so the replacement is character by character. -/
def replaceSpaces (s : String) : String :=
  ⟨s.data.map (fun c => if c = ' ' then '-' else c)⟩

/-- Go `strings.HasPrefix`. -/
def HasPrefix (s p : String) : Bool := p.data.isPrefixOf s.data

/-- Go `strings.HasSuffix`. -/
def HasSuffix (s p : String) : Bool := p.data.reverse.isPrefixOf s.data.reverse

/-- Go `strings.Contains`, as a proposition: `sub` occurs in `s`. -/
def Contains (s sub : String) : Prop := sub.data <:+: s.data

/-- Collects the white-space separated tokens; `cur` is the token being read,
most recent character first. -/
def fieldsGo (cur : List Char) : List Char → List (List Char)
  | [] => if cur = [] then [] else [cur.reverse]
  | c :: cs =>
    if isSpace c then
      (if cur = [] then fieldsGo [] cs else cur.reverse :: fieldsGo [] cs)
    else fieldsGo (c :: cur) cs

/-- Go `strings.Fields`: the maximal runs of non-space characters. -/
def Fields (s : String) : List String := (fieldsGo [] s.data).map String.mk

/-- The decimal digit character of `d % 10`. -/
def digitChar (d : Nat) : Char := Char.ofNat (48 + d % 10)

/-- Decimal digits of `n`, most significant first, prepended to `acc`; `fuel`
bounds the number of digits. -/
def natDigits : Nat → Nat → List Char → List Char
  | 0, _, acc => acc
  | fuel + 1, n, acc =>
    if n / 10 = 0 then digitChar n :: acc
    else natDigits fuel (n / 10) (digitChar n :: acc)

/-- Go `strconv.Itoa`. -/
def Itoa (n : Int) : String :=
  if n < 0 then ⟨'-' :: natDigits (n.natAbs + 1) n.natAbs []⟩
  else ⟨natDigits (n.natAbs + 1) n.natAbs []⟩

/-- Value of a string of decimal digits, `none` if some character is not a
digit; `acc` is the value read so far. -/
def parseDigits : Nat → List Char → Option Nat
  | acc, [] => some acc
  | acc, c :: cs =>
    if 48 ≤ c.toNat ∧ c.toNat ≤ 57 then parseDigits (acc * 10 + (c.toNat - 48)) cs
    else none

/-- The digits of `strconv.Atoi` after the sign: at least one, all decimal,
the signed value within the range of a 64-bit `int`. -/
def atoiDigits (neg : Bool) (ds : List Char) : Option Int :=
  match ds with
  | [] => none
  | _ :: _ =>
    match parseDigits 0 ds with
    | none => none
    | some v =>
      if neg then (if v ≤ 2 ^ 63 then some (-(v : Int)) else none)
      else (if v < 2 ^ 63 then some (v : Int) else none)

/-- Go `strconv.Atoi` on a 64-bit platform: an optional sign, then one or more
decimal digits, the value within the range of `int`; `none` is a non-nil
error. -/
def Atoi (s : String) : Option Int :=
  match s.data with
  | [] => none
  | c :: ds =>
    if c = '-' then atoiDigits true ds
    else if c = '+' then atoiDigits false ds
    else atoiDigits false (c :: ds)

/-! ## Package `vm`: validation -/

/-- The function `isValidRAM` of vm.go: linear search of the fixed table. -/
def isValidRAM (ram : Int) : Bool :=
  let validSizes : List Int := [1, 2, 4, 8, 16, 32, 64, 128]
  validSizes.any (fun size => ram == size)

/-! ## Package `process` -/

/-- The external tool as the Command Proxy sees it: given the argument lists of
the invocations made so far and the arguments of the present one, the combined
output and the error. -/
abbrev GCloud := List (List String) → List String → String × Option String

/-- The part of the outside world the program acts on: the strings still to be
returned by `process.ReadInput`, and the invocations of the external tool made
so far, oldest first. -/
structure World where
  inputs : List String
  calls : List (List String)
  deriving DecidableEq, Repr

/-- Ways in which a run stops without returning: `log.Fatalf`, `os.Exit`, a
run-time panic, or the iteration bound of a prompt loop being reached. -/
inductive Stop where
  | fatal (msg : String)
  | exit (code : Int)
  | panic (msg : String)
  | fuel
  deriving DecidableEq, Repr

/-- The function `ExecuteGCloudCommand` of process.go: run the tool, return output and error. -/
def ExecuteGCloudCommand (tool : GCloud) (args : List String) (w : World) :
    (String × Option String) × World :=
  (tool w.calls args, { w with calls := w.calls ++ [args] })

/-- The function `ReadInput` of read.go, the initial value of the variable
`process.ReadInput`: scan one line of standard input and trim it; at end of
input the scanner yields the empty text. -/
def ReadInput (stdin : List String) : String × List String :=
  match stdin with
  | [] => (TrimSpace "", [])
  | line :: rest => (TrimSpace line, rest)

/-- A call `process.ReadInput()` through the function variable: the next of
the strings it returns. -/
def nextInput (w : World) : String × World :=
  match w.inputs with
  | [] => ("", w)
  | line :: rest => (line, { w with inputs := rest })

/-- The function `PromptYesNo` of prompt.go. -/
def PromptYesNo (uni : Char → Char) (w : World) : Bool × World :=
  let (line, w1) := nextInput w
  let input := ToLower uni line
  (input == "y" || input == "yes", w1)

/-! ## Package `vm` -/

/-- The record `VMConfig` of vm.go. -/
structure VMConfig where
  Name : String
  Zone : String
  MachineType : String
  ImageFamily : String
  ImageProject : String
  DiskSize : Int
  IsFreeVM : Bool
  deriving DecidableEq, Repr

/-- The record `osInfo` of vm.go. -/
structure osInfo where
  family : String
  project : String
  deriving DecidableEq, Repr

/-- Go `rand.Intn`: panics unless `n > 0`, otherwise some value in `[0, n)`;
`rnd` is the raw draw of the random source. -/
def Intn (rnd : Nat) (n : Int) : Except Stop Nat :=
  if n ≤ 0 then .error (.panic "invalid argument to Intn") else .ok (rnd % n.toNat)

/-- The function `getVMName` of vm.go; `rand.Intn(10000)` cannot panic and yields
`rnd % 10000`. -/
def getVMName (uni : Char → Char) (rnd : Nat) (w : World) : String × World :=
  let (name, w1) := nextInput w
  let sanitized := ToLower uni (replaceSpaces name)
  (sanitized ++ "-" ++ Itoa ((rnd % 10000 : Nat) : Int), w1)

/-- The function `chooseVMType` of vm.go; `fuel` bounds the number of loop iterations. -/
def chooseVMType : Nat → World → Except Stop (Int × World)
  | 0, _ => .error .fuel
  | fuel + 1, w =>
    let (input, w1) := nextInput w
    match Atoi input with
    | some val => if val = 1 ∨ val = 2 then .ok (val, w1) else chooseVMType fuel w1
    | none => chooseVMType fuel w1

/-- The arguments of the zone discovery call of `getUSZones`. -/
def usZonesArgs : List String :=
  ["compute", "zones", "list",
   "--filter=(region:us-west1 OR region:us-east1 OR region:us-central1) AND status=UP",
   "--format=value(name)"]

/-- The function `getUSZones` of vm.go. -/
def getUSZones (tool : GCloud) (w : World) : (List String × Option String) × World :=
  let ((output, err), w1) := ExecuteGCloudCommand tool usZonesArgs w
  match err with
  | some e => (([], some e), w1)
  | none => ((Fields output, none), w1)

/-- The function `chooseZone` of vm.go. -/
def chooseZone (rnd : Nat) (zones : List String) (defaultZone : String) : Except Stop String :=
  if defaultZone ≠ "" ∧ zones.any (fun zone => zone == defaultZone) then .ok defaultZone
  else
    match Intn rnd (zones.length : Int) with
    | .error e => .error e
    | .ok i =>
      match zones.get? i with
      | some z => .ok z
      | none => .error (.panic "index out of range")

/-- The arguments of the describe call of `checkMachineTypeAvailable`. -/
def describeArgs (zone machineType : String) : List String :=
  ["compute", "machine-types", "describe", machineType, "--zone", zone,
   "--format=value(name)"]

/-- The function `checkMachineTypeAvailable` of vm.go. -/
def checkMachineTypeAvailable (tool : GCloud) (zone machineType : String) (w : World) :
    (Bool × Option String) × World :=
  let ((output, err), w1) := ExecuteGCloudCommand tool (describeArgs zone machineType) w
  ((output != "", err), w1)

/-- The function `setupFreeVM` of vm.go. -/
def setupFreeVM (tool : GCloud) (rnd : Nat) (name defaultZone : String) (w : World) :
    Except Stop (VMConfig × World) :=
  let ((zones, err), w1) := getUSZones tool w
  match err with
  | some e => .error (.fatal ("Failed to get US zones: " ++ e))
  | none =>
    match chooseZone rnd zones defaultZone with
    | .error e => .error e
    | .ok zone =>
      let ((available, err2), w2) := checkMachineTypeAvailable tool zone "e2-micro" w1
      if err2.isSome ∨ ¬ available then
        .error (.fatal ("e2-micro is not available in zone " ++ zone))
      else
        .ok ({ Name := name, Zone := zone, MachineType := "e2-micro",
               ImageFamily := "debian-11", ImageProject := "debian-cloud",
               DiskSize := 30, IsFreeVM := true }, w2)

/-- The function `chooseOS` of vm.go. -/
def chooseOS (w : World) : osInfo × World :=
  let (choice, w1) := nextInput w
  if choice = "2" then ({ family := "ubuntu-2204-lts", project := "ubuntu-os-cloud" }, w1)
  else if choice = "3" then ({ family := "rocky-linux-9", project := "rocky-linux-cloud" }, w1)
  else ({ family := "debian-11", project := "debian-cloud" }, w1)

/-- The function `chooseRAM` of vm.go; `fuel` bounds the number of loop iterations. -/
def chooseRAM : Nat → World → Except Stop (Int × World)
  | 0, _ => .error .fuel
  | fuel + 1, w =>
    let (input, w1) := nextInput w
    match Atoi input with
    | some ram => if isValidRAM ram then .ok (ram, w1) else chooseRAM fuel w1
    | none => chooseRAM fuel w1

/-- The function `getMachineTypes` of vm.go. -/
def getMachineTypes (tool : GCloud) (zone : String) (ramMB : Int) (w : World) :
    (List String × Option String) × World :=
  let ((output, err), w1) := ExecuteGCloudCommand tool
    ["compute", "machine-types", "list",
     "--filter=zone:" ++ zone ++ " AND memoryMb=" ++ Itoa ramMB ++ " AND name ~ ^e2",
     "--format=value(name)", "--sort-by=name"] w
  match err with
  | some e => (([], some e), w1)
  | none => ((Fields output, none), w1)

/-- The selection loop of `chooseMachineType`; `fuel` bounds the number of
iterations. -/
def selectMachine (machines : List String) : Nat → World → Except Stop (String × World)
  | 0, _ => .error .fuel
  | fuel + 1, w =>
    let (input, w1) := nextInput w
    match Atoi input with
    | some idx =>
      if 0 < idx ∧ idx ≤ (machines.length : Int) then
        match machines.get? (idx - 1).toNat with
        | some m => .ok (m, w1)
        | none => .error (.panic "index out of range")
      else selectMachine machines fuel w1
    | none => selectMachine machines fuel w1

/-- The function `chooseMachineType` of vm.go. -/
def chooseMachineType (tool : GCloud) (fuel : Nat) (zone : String) (ram : Int) (w : World) :
    Except Stop (String × World) :=
  let ((machines, err), w1) := getMachineTypes tool zone (ram * 1024) w
  match err with
  | some e => .error (.fatal ("Failed to get machine types: " ++ e))
  | none =>
    if machines.length = 0 then
      .error (.fatal ("No machine types found with " ++ Itoa ram ++ "GB RAM in zone " ++ zone))
    else selectMachine machines fuel w1

/-- The function `setupCustomVM` of vm.go. -/
def setupCustomVM (tool : GCloud) (fuel : Nat) (name zone : String) (w : World) :
    Except Stop (VMConfig × World) :=
  let (os, w1) := chooseOS w
  match chooseRAM fuel w1 with
  | .error e => .error e
  | .ok (ram, w2) =>
    match chooseMachineType tool fuel zone ram w2 with
    | .error e => .error e
    | .ok (machineType, w3) =>
      .ok ({ Name := name, Zone := zone, MachineType := machineType,
             ImageFamily := os.family, ImageProject := os.project,
             DiskSize := 200, IsFreeVM := false }, w3)

/-- The argument list `createVM` of vm.go assembles (lines 113-133). -/
def createVMArgs (config : VMConfig) : List String :=
  let args := ["compute", "instances", "create", config.Name,
    "--image-family=" ++ config.ImageFamily,
    "--image-project=" ++ config.ImageProject,
    "--machine-type=" ++ config.MachineType,
    "--boot-disk-size=" ++ Itoa config.DiskSize ++ "GB",
    "--zone=" ++ config.Zone]
  let args := args ++ ["--shielded-secure-boot", "--shielded-vtpm",
    "--shielded-integrity-monitoring"]
  if config.IsFreeVM then args ++ ["--provisioning-model=STANDARD"] else args

/-- The function `createVM` of vm.go: the returned error (`none` is `nil`) and the world
afterwards. -/
def createVM (uni : Char → Char) (tool : GCloud) (config : VMConfig) (w : World) :
    Option String × World :=
  let args := createVMArgs config
  let (proceed, w1) := PromptYesNo uni w
  if ¬ proceed then (some "VM creation cancelled by user", w1)
  else
    let ((output, err), w2) := ExecuteGCloudCommand tool args w1
    match err with
    | some e => (some ("failed to create VM: " ++ e ++ "\nOutput: " ++ output), w2)
    | none => (none, w2)

/-! ## Package `config` -/

/-- The record `CloudConfig` of config.go. -/
structure CloudConfig where
  Project : String
  Zone : String
  Region : String
  deriving DecidableEq, Repr

/-- What `config.init` consults on the host besides the Command Proxy: the
result of `exec.LookPath`, whether the configuration directory is missing and
the result of creating it, and the result of running `gcloud init`. -/
structure Host where
  lookPathErr : Option String
  configDirMissing : Bool
  mkdirErr : Option String
  initErr : Option String

/-- The function `setupGCloudConfig` of config.go. -/
def setupGCloudConfig (host : Host) (tool : GCloud) (w : World) :
    Except Stop (CloudConfig × World) :=
  match (if host.configDirMissing then host.mkdirErr else none) with
  | some e => .error (.fatal ("Failed to create config directory: " ++ e))
  | none =>
    let ((zone, _), w1) := ExecuteGCloudCommand tool ["config", "get-value", "compute/zone"] w
    let ((region, _), w2) := ExecuteGCloudCommand tool ["config", "get-value", "compute/region"] w1
    let ((project, _), w3) := ExecuteGCloudCommand tool ["config", "get-value", "project"] w2
    .ok ({ Zone := TrimSpace zone, Region := TrimSpace region, Project := TrimSpace project }, w3)

/-- The function `initializeGCloud` of config.go: wait for Enter, then run `gcloud init` on
the terminal; the run is recorded among the invocations of the tool. -/
def initializeGCloud (host : Host) (w : World) : Option String × World :=
  let w1 := (nextInput w).2
  (host.initErr, { w1 with calls := w1.calls ++ [["init"]] })

/-- The function `checkRequirements` of config.go; the billing check only prints a warning. -/
def checkRequirements (uni : Char → Char) (tool : GCloud) (w : World) : Bool × World :=
  let ((output, err), w1) := ExecuteGCloudCommand tool
    ["auth", "list", "--filter=status:ACTIVE", "--format=value(account)"] w
  if err.isSome ∨ output = "" then (false, w1)
  else
    let ((project, err2), w2) := ExecuteGCloudCommand tool ["config", "get-value", "project"] w1
    let w3 :=
      if err2.isNone ∧ project ≠ "" then
        (ExecuteGCloudCommand tool
          ["beta", "billing", "projects", "describe", TrimSpace project] w2).2
      else w2
    PromptYesNo uni w3

/-- The function `init` of config.go.  `Config` is the value of the package variable
`config.Config` on entry; the result carries its value on return.  The
function keeps what it loads in the local variable `config` and has no
assignment to `Config`. -/
def init (uni : Char → Char) (host : Host) (tool : GCloud) (Config : CloudConfig) (w : World) :
    Except Stop (CloudConfig × World) :=
  match host.lookPathErr with
  | some e => .error (.fatal ("gcloud CLI not found: " ++ e))
  | none =>
    let w1 := (nextInput w).2
    let (met, w2) := checkRequirements uni tool w1
    if ¬ met then .error (.exit 1)
    else
      match setupGCloudConfig host tool w2 with
      | .error e => .error e
      | .ok (config, w3) =>
        if config.Zone = "" then
          let (err, w4) := initializeGCloud host w3
          match err with
          | some e => .error (.fatal ("Failed to initialize GCloud: " ++ e))
          | none =>
            match setupGCloudConfig host tool w4 with
            | .error e => .error e
            | .ok (config2, w5) =>
              if config2.Zone = "" then
                .error (.fatal "Zone is still not set after initialization")
              else .ok (Config, w5)
        else .ok (Config, w3)

/-- The function `VM` of vm.go; `Config` is the value of `config.Config` it reads. -/
def VM (uni : Char → Char) (tool : GCloud) (rndName rndZone fuel : Nat) (Config : CloudConfig)
    (w : World) : Except Stop World :=
  let (vmName, w1) := getVMName uni rndName w
  match chooseVMType fuel w1 with
  | .error e => .error e
  | .ok (vmType, w2) =>
    match (if vmType = 1 then setupFreeVM tool rndZone vmName Config.Zone w2
           else setupCustomVM tool fuel vmName Config.Zone w2) with
    | .error e => .error e
    | .ok (vm, w3) =>
      match createVM uni tool vm w3 with
      | (some e, _) => .error (.fatal ("Failed to create VM: " ++ e))
      | (none, w4) => .ok w4

/-! ## Auxiliary definitions used in the statements -/

/-- What the wizard relies on of Go's case table for runes above U+007F: a
lower case is again above U+007F, or it is `i` (U+0130) or `k` (U+212A). -/
def TableStaysAbove (uni : Char → Char) : Prop :=
  ∀ c : Char, 128 ≤ c.toNat → 128 ≤ (uni c).toNat ∨ uni c = 'i' ∨ uni c = 'k'

/-- The lines that equal "y" or "yes" when letter case is ignored. -/
def yesSpellings : List String :=
  ["y", "Y", "yes", "yeS", "yEs", "yES", "Yes", "YeS", "YEs", "YES"]

/-- The flag prefixes of the creation command that carry a value. -/
def flagPrefixes : List String :=
  ["--image-family=", "--image-project=", "--machine-type=", "--boot-disk-size=", "--zone="]

/-- The flags of the creation command that carry no variable part. -/
def fixedFlags : List String :=
  ["--shielded-secure-boot", "--shielded-vtpm", "--shielded-integrity-monitoring",
   "--provisioning-model=STANDARD"]

/-- A host on which `gcloud` is installed and its configuration directory exists. -/
def readyHost : Host :=
  { lookPathErr := none, configDirMissing := false, mkdirErr := none, initErr := none }

/-- A tool with an active account whose configuration store holds the project
`demo`, the zone `us-central1-a` and the region `us-central1`. -/
def reportingTool : GCloud := fun _ args =>
  if args = ["config", "get-value", "compute/zone"] then ("us-central1-a\n", none)
  else if args = ["config", "get-value", "compute/region"] then ("us-central1\n", none)
  else if args = ["config", "get-value", "project"] then ("demo\n", none)
  else if args = ["auth", "list", "--filter=status:ACTIVE", "--format=value(account)"] then
    ("user@example.com\n", none)
  else ("billingEnabled: true\n", none)

/-! ## Properties -/

/-! ### Tokens of `strings.Fields` -/

theorem fieldsGo_nonempty (cs : List Char) :
    ∀ cur : List Char, ∀ t ∈ fieldsGo cur cs, t ≠ [] := by
  induction cs with
  | nil =>
    intro cur t ht
    by_cases hc : cur = []
    · simp [fieldsGo, hc] at ht
    · simp [fieldsGo, hc] at ht
      subst ht
      simpa using hc
  | cons c cs ih =>
    intro cur t ht
    by_cases hs : isSpace c = true
    · by_cases hc : cur = []
      · simp [fieldsGo, hs, hc] at ht
        exact ih [] t ht
      · simp [fieldsGo, hs, hc] at ht
        rcases ht with ht | ht
        · subst ht
          simpa using hc
        · exact ih [] t ht
    · simp [fieldsGo, hs] at ht
      exact ih (c :: cur) t ht

theorem Fields_ne_empty (s t : String) (ht : t ∈ Fields s) : t ≠ "" := by
  unfold Fields at ht
  rcases List.mem_map.1 ht with ⟨l, hl, rfl⟩
  intro h
  have hd : l = [] := by
    have := congrArg String.data h
    simpa using this
  exact fieldsGo_nonempty s.data [] l hl hd

theorem fieldsGo_spaces (cs : List Char) (h : ∀ c ∈ cs, isSpace c = true) :
    fieldsGo [] cs = [] := by
  induction cs with
  | nil => simp [fieldsGo]
  | cons c cs ih =>
    have hc : isSpace c = true := h c (List.mem_cons_self _ _)
    have ih2 := ih (fun d hd => h d (List.mem_cons_of_mem _ hd))
    simp [fieldsGo, hc, ih2]

theorem Fields_spaces (s : String) (h : ∀ c ∈ s.data, isSpace c = true) : Fields s = [] := by
  simp [Fields, fieldsGo_spaces s.data h]

/-! ### Operating system selection -/

/-- C9. `chooseOS` answers the line "2" with Ubuntu, "3" with Rocky Linux, and
"1", every other line and the exhausted input with Debian. -/
theorem chooseOS_table (rest : List String) (calls : List (List String)) :
    (chooseOS ⟨"2" :: rest, calls⟩).1 = ⟨"ubuntu-2204-lts", "ubuntu-os-cloud"⟩ ∧
    (chooseOS ⟨"3" :: rest, calls⟩).1 = ⟨"rocky-linux-9", "rocky-linux-cloud"⟩ ∧
    (chooseOS ⟨"1" :: rest, calls⟩).1 = ⟨"debian-11", "debian-cloud"⟩ ∧
    (∀ line : String, line ≠ "2" → line ≠ "3" →
      (chooseOS ⟨line :: rest, calls⟩).1 = ⟨"debian-11", "debian-cloud"⟩) ∧
    (chooseOS ⟨[], calls⟩).1 = ⟨"debian-11", "debian-cloud"⟩ := by
  refine ⟨by simp [chooseOS, nextInput], by simp [chooseOS, nextInput],
    by simp [chooseOS, nextInput], ?_, by simp [chooseOS, nextInput]⟩
  intro line h2 h3
  simp [chooseOS, nextInput, h2, h3]

/-! ### Running the creation command -/

/-- C2. `createVM` returns no error exactly when the confirmation is
affirmative and the tool reports success; a declined confirmation returns the
cancellation error without any invocation of the tool; a failing tool gives an
error text containing the tool's error and its output. -/
theorem createVM_result (uni : Char → Char) (tool : GCloud) (config : VMConfig) (w : World) :
    ((createVM uni tool config w).1 = none ↔
      (PromptYesNo uni w).1 = true ∧ (tool w.calls (createVMArgs config)).2 = none) ∧
    ((PromptYesNo uni w).1 = false →
      (createVM uni tool config w).1 = some "VM creation cancelled by user" ∧
      (createVM uni tool config w).2.calls = w.calls) ∧
    ((PromptYesNo uni w).1 = true →
      (createVM uni tool config w).2.calls = w.calls ++ [createVMArgs config] ∧
      ∀ e : String, (tool w.calls (createVMArgs config)).2 = some e →
        ∃ msg : String, (createVM uni tool config w).1 = some msg ∧
          Contains msg e ∧ Contains msg (tool w.calls (createVMArgs config)).1) := by
  have hcalls : (PromptYesNo uni w).2.calls = w.calls := by
    unfold PromptYesNo nextInput
    cases w with
    | mk inputs calls => cases inputs <;> rfl
  cases hp : (PromptYesNo uni w).1 with
  | false =>
    have hc : createVM uni tool config w =
        (some "VM creation cancelled by user", (PromptYesNo uni w).2) := by
      simp [createVM, hp]
    simp [hc, hcalls]
  | true =>
    cases hr : tool w.calls (createVMArgs config) with
    | mk output err =>
      cases err with
      | none =>
        have hc : createVM uni tool config w =
            (none, { (PromptYesNo uni w).2 with
              calls := (PromptYesNo uni w).2.calls ++ [createVMArgs config] }) := by
          simp [createVM, hp, ExecuteGCloudCommand, hcalls, hr]
        simp [hc, hcalls]
      | some e =>
        have hc : createVM uni tool config w =
            (some ("failed to create VM: " ++ e ++ "\nOutput: " ++ output),
             { (PromptYesNo uni w).2 with
              calls := (PromptYesNo uni w).2.calls ++ [createVMArgs config] }) := by
          simp [createVM, hp, ExecuteGCloudCommand, hcalls, hr]
        simp only [hc, hcalls]
        refine ⟨by simp, by simp, fun _ => ⟨trivial, ?_⟩⟩
        intro e2 he2
        have : e2 = e := by simpa using he2.symm
        subst this
        refine ⟨_, rfl, ?_, ?_⟩
        · exact ⟨"failed to create VM: ".data, ("\nOutput: " ++ output).data, by
            simp [String.data_append, List.append_assoc]⟩
        · exact ⟨("failed to create VM: " ++ e2 ++ "\nOutput: ").data, [], by
            simp [String.data_append, List.append_assoc]⟩


/-- C4. `isValidRAM ram` holds exactly for the eight table values. -/
theorem isValidRAM_iff (ram : Int) :
    isValidRAM ram = true ↔
      ram = 1 ∨ ram = 2 ∨ ram = 4 ∨ ram = 8 ∨ ram = 16 ∨ ram = 32 ∨ ram = 64 ∨ ram = 128 := by
  simp [isValidRAM]

/-! ### Zone selection and the free-tier configuration -/

theorem chooseZone_default (rnd : Nat) (zones : List String) (defaultZone : String)
    (hne : defaultZone ≠ "") (hmem : defaultZone ∈ zones) :
    chooseZone rnd zones defaultZone = .ok defaultZone := by
  have hany : (zones.any fun zone => zone == defaultZone) = true := by
    simp only [List.any_eq_true]
    exact ⟨defaultZone, hmem, by simp⟩
  simp [chooseZone, hne, hany]

theorem chooseZone_nil (rnd : Nat) (defaultZone : String) :
    chooseZone rnd [] defaultZone = .error (.panic "invalid argument to Intn") := by
  simp [chooseZone, Intn]

theorem chooseZone_mem (rnd : Nat) (zones : List String) (defaultZone : String) (hz : zones ≠ []) :
    ∃ z, chooseZone rnd zones defaultZone = .ok z ∧ z ∈ zones := by
  by_cases hd : defaultZone ≠ "" ∧ (zones.any fun zone => zone == defaultZone) = true
  · refine ⟨defaultZone, by simp [chooseZone, hd], ?_⟩
    have h2 := hd.2
    simp only [List.any_eq_true] at h2
    rcases h2 with ⟨z, hz1, hz2⟩
    have : z = defaultZone := by simpa using hz2
    exact this ▸ hz1
  · have hlen : 0 < zones.length := List.length_pos.2 hz
    have hlt : rnd % zones.length < zones.length := Nat.mod_lt _ hlen
    have hI : Intn rnd (zones.length : Int) = .ok (rnd % zones.length) := by
      have : ¬ ((zones.length : Int) ≤ 0) := by omega
      simp [Intn, this]
    refine ⟨zones.get ⟨rnd % zones.length, hlt⟩, ?_, List.get_mem _ _ _⟩
    have hg : zones.get? (rnd % zones.length) = some (zones.get ⟨rnd % zones.length, hlt⟩) :=
      List.get?_eq_get hlt
    unfold chooseZone
    rw [if_neg hd, hI]
    simp only [hg]

/-- C10. `chooseZone` yields a zone exactly when the list is non-empty, and
the zone it yields is in the list; on the empty list it panics, which is what
happens in `setupFreeVM` when zone discovery succeeds with output that holds
white space only. -/
theorem chooseZone_result (rnd : Nat) (zones : List String) (defaultZone : String) :
    ((∃ z, chooseZone rnd zones defaultZone = .ok z) ↔ zones ≠ []) ∧
    (∀ z, chooseZone rnd zones defaultZone = .ok z → z ∈ zones) ∧
    (zones = [] →
      chooseZone rnd zones defaultZone = .error (.panic "invalid argument to Intn")) ∧
    (∀ (tool : GCloud) (name : String) (w : World) (output : String),
      tool w.calls usZonesArgs = (output, none) → (∀ c ∈ output.data, isSpace c = true) →
        (getUSZones tool w).1 = ([], none) ∧
        setupFreeVM tool rnd name defaultZone w =
          .error (.panic "invalid argument to Intn")) := by
  refine ⟨⟨?_, ?_⟩, ?_, ?_, ?_⟩
  · rintro ⟨z, hz⟩ hnil
    subst hnil
    rw [chooseZone_nil] at hz
    cases hz
  · intro hz
    rcases chooseZone_mem rnd zones defaultZone hz with ⟨z, h, _⟩
    exact ⟨z, h⟩
  · intro z hz
    by_cases hnil : zones = []
    · subst hnil
      rw [chooseZone_nil] at hz
      cases hz
    · rcases chooseZone_mem rnd zones defaultZone hnil with ⟨z2, h, hm⟩
      rw [h] at hz
      cases hz
      exact hm
  · intro hz
    subst hz
    exact chooseZone_nil rnd defaultZone
  · intro tool name w output hrun hsp
    have hF : Fields output = [] := Fields_spaces output hsp
    have hg : getUSZones tool w = (([], none), { w with calls := w.calls ++ [usZonesArgs] }) := by
      simp [getUSZones, ExecuteGCloudCommand, hrun, hF]
    refine ⟨by rw [hg], ?_⟩
    simp [setupFreeVM, hg, chooseZone_nil]

/-- C7. When zone discovery succeeds, the default zone is among the zones it
lists and the describe call for `e2-micro` in that zone succeeds with
non-empty output, `setupFreeVM` returns the fixed free-tier configuration in
the default zone, whatever the random draw. -/
theorem setupFreeVM_default (tool : GCloud) (rnd : Nat) (name defaultZone : String) (w : World)
    (output described : String)
    (hzones : tool w.calls usZonesArgs = (output, none))
    (hmem : defaultZone ∈ Fields output)
    (hdesc : tool (w.calls ++ [usZonesArgs]) (describeArgs defaultZone "e2-micro") =
      (described, none))
    (hout : described ≠ "") :
    setupFreeVM tool rnd name defaultZone w =
      .ok ({ Name := name, Zone := defaultZone, MachineType := "e2-micro",
             ImageFamily := "debian-11", ImageProject := "debian-cloud",
             DiskSize := 30, IsFreeVM := true },
           { w with calls := w.calls ++ [usZonesArgs, describeArgs defaultZone "e2-micro"] }) := by
  have hne : defaultZone ≠ "" := Fields_ne_empty output defaultZone hmem
  have hg : getUSZones tool w =
      ((Fields output, none), { w with calls := w.calls ++ [usZonesArgs] }) := by
    simp [getUSZones, ExecuteGCloudCommand, hzones]
  have hc := chooseZone_default rnd (Fields output) defaultZone hne hmem
  simp [setupFreeVM, hg, hc, checkMachineTypeAvailable, ExecuteGCloudCommand, hdesc, hout]

/-- Witness for C7: the situation of `TestSetupFreeVM`. -/
theorem setupFreeVM_default_witness :
    setupFreeVM
      (fun _ args =>
        if args = usZonesArgs then ("us-central1-a us-central1-b", none)
        else if args = describeArgs "us-central1-a" "e2-micro" then ("e2-micro", none)
        else ("", none))
      7 "test-vm" "us-central1-a" ⟨[], []⟩ =
      .ok ({ Name := "test-vm", Zone := "us-central1-a", MachineType := "e2-micro",
             ImageFamily := "debian-11", ImageProject := "debian-cloud",
             DiskSize := 30, IsFreeVM := true },
           ⟨[], [usZonesArgs, describeArgs "us-central1-a" "e2-micro"]⟩) :=
  setupFreeVM_default _ 7 "test-vm" "us-central1-a" ⟨[], []⟩
    "us-central1-a us-central1-b" "e2-micro" (by decide) (by decide) (by decide) (by decide)

/-! ### Characters -/

theorem ascii_cases (P : Char → Prop) (h : ∀ n : Fin 128, P (Char.ofNat n)) (c : Char)
    (hc : c.toNat < 128) : P c := by
  have h1 := h ⟨c.toNat, hc⟩
  simpa [Char.ofNat_toNat] using h1

theorem digitChar_toNat (d : Nat) : (digitChar d).toNat = 48 + d % 10 := by
  have h : d % 10 < 10 := Nat.mod_lt _ (by decide)
  unfold digitChar
  generalize d % 10 = k at h
  interval_cases k <;> rfl

set_option maxRecDepth 100000 in
theorem sanitize_ascii :
    ∀ n : Fin 128, lowerASCII (if Char.ofNat n = ' ' then '-' else Char.ofNat n) ≠ ' ' ∧
      ¬ (65 ≤ (lowerASCII (if Char.ofNat n = ' ' then '-' else Char.ofNat n)).toNat ∧
         (lowerASCII (if Char.ofNat n = ' ' then '-' else Char.ofNat n)).toNat ≤ 90) := by
  decide

set_option maxRecDepth 100000 in
theorem lowerASCII_yes :
    ∀ n : Fin 128,
      (lowerASCII (Char.ofNat n) = 'y' ↔ Char.ofNat n = 'y' ∨ Char.ofNat n = 'Y') ∧
      (lowerASCII (Char.ofNat n) = 'e' ↔ Char.ofNat n = 'e' ∨ Char.ofNat n = 'E') ∧
      (lowerASCII (Char.ofNat n) = 's' ↔ Char.ofNat n = 's' ∨ Char.ofNat n = 'S') := by
  decide

theorem toLowerRune_yes (uni : Char → Char) (hU : TableStaysAbove uni) (c : Char) :
    (toLowerRune uni c = 'y' ↔ c = 'y' ∨ c = 'Y') ∧
    (toLowerRune uni c = 'e' ↔ c = 'e' ∨ c = 'E') ∧
    (toLowerRune uni c = 's' ↔ c = 's' ∨ c = 'S') := by
  by_cases hc : c.toNat < 128
  · have h := ascii_cases (fun c =>
      (lowerASCII c = 'y' ↔ c = 'y' ∨ c = 'Y') ∧
      (lowerASCII c = 'e' ↔ c = 'e' ∨ c = 'E') ∧
      (lowerASCII c = 's' ↔ c = 's' ∨ c = 'S')) lowerASCII_yes c hc
    simpa [toLowerRune, hc] using h
  · have hge : 128 ≤ c.toNat := Nat.le_of_not_lt hc
    have hne : ∀ d : Char, d.toNat < 128 → c ≠ d := by
      intro d hd h
      rw [h] at hge
      omega
    have hu : ∀ d : Char, d.toNat < 128 → d ≠ 'i' → d ≠ 'k' → uni c ≠ d := by
      intro d hd hi hk h
      rcases hU c hge with h1 | h1 | h1
      · rw [h] at h1
        omega
      · exact hi (h ▸ h1)
      · exact hk (h ▸ h1)
    simp only [toLowerRune, hc, if_false]
    refine ⟨?_, ?_, ?_⟩
    · constructor
      · intro h
        exact absurd h (hu 'y' (by decide) (by decide) (by decide))
      · rintro (h | h)
        · exact absurd h (hne 'y' (by decide))
        · exact absurd h (hne 'Y' (by decide))
    · constructor
      · intro h
        exact absurd h (hu 'e' (by decide) (by decide) (by decide))
      · rintro (h | h)
        · exact absurd h (hne 'e' (by decide))
        · exact absurd h (hne 'E' (by decide))
    · constructor
      · intro h
        exact absurd h (hu 's' (by decide) (by decide) (by decide))
      · rintro (h | h)
        · exact absurd h (hne 's' (by decide))
        · exact absurd h (hne 'S' (by decide))

theorem map_eq_one {f : Char → Char} {l : List Char} {x : Char} (h : l.map f = [x]) :
    ∃ a, l = [a] ∧ f a = x := by
  match l, h with
  | [a], h =>
    simp only [List.map, List.cons.injEq, and_true] at h
    exact ⟨a, rfl, h⟩

theorem map_eq_three {f : Char → Char} {l : List Char} {x y z : Char}
    (h : l.map f = [x, y, z]) :
    ∃ a b c, l = [a, b, c] ∧ f a = x ∧ f b = y ∧ f c = z := by
  match l, h with
  | [a, b, c], h =>
    simp only [List.map, List.cons.injEq, and_true] at h
    exact ⟨a, b, c, rfl, h.1, h.2.1, h.2.2⟩

theorem ToLower_yes (uni : Char → Char) (hU : TableStaysAbove uni) (line : String) :
    (ToLower uni line = "y" ∨ ToLower uni line = "yes") ↔ line ∈ yesSpellings := by
  have hy : ("y" : String) = ⟨['y']⟩ := rfl
  have hyes : ("yes" : String) = ⟨['y', 'e', 's']⟩ := rfl
  constructor
  · intro h
    cases line with
    | mk l =>
      simp only [ToLower, hy, hyes] at h
      rcases h with h | h
      · have h := congrArg String.data h
        rcases map_eq_one h with ⟨a, rfl, ha⟩
        rcases (toLowerRune_yes uni hU a).1.1 ha with rfl | rfl <;> decide
      · have h := congrArg String.data h
        rcases map_eq_three h with ⟨a, b, c, rfl, ha, hb, hc⟩
        rcases (toLowerRune_yes uni hU a).1.1 ha with rfl | rfl <;>
        rcases (toLowerRune_yes uni hU b).2.1.1 hb with rfl | rfl <;>
        rcases (toLowerRune_yes uni hU c).2.2.1 hc with rfl | rfl <;> decide
  · intro h
    simp only [yesSpellings, List.mem_cons, List.mem_singleton, List.not_mem_nil, or_false] at h
    rcases h with rfl | rfl | rfl | rfl | rfl | rfl | rfl | rfl | rfl | rfl <;>
      first | exact Or.inl rfl | exact Or.inr rfl

/-! ### The yes/no prompt -/

/-- C8. `PromptYesNo` answers true exactly on the lines that equal "y" or
"yes" when letter case is ignored; every other line gives false, among them
the empty line, "n", "no", "yeah" and "ye"; so does the exhausted input.  The
line is the text the call of `ReadInput` hands over; for the reader of
read.go that is the scanned line without its surrounding white space. -/
theorem PromptYesNo_iff (uni : Char → Char) (hU : TableStaysAbove uni) (line : String)
    (stdin rest : List String) (calls : List (List String)) :
    ((PromptYesNo uni ⟨line :: rest, calls⟩).1 = true ↔ line ∈ yesSpellings) ∧
    ((PromptYesNo uni ⟨(ReadInput stdin).1 :: rest, calls⟩).1 = true ↔
      (ReadInput stdin).1 ∈ yesSpellings) ∧
    (∀ l ∈ ["", "n", "no", "yeah", "ye"], (PromptYesNo uni ⟨l :: rest, calls⟩).1 = false) ∧
    (PromptYesNo uni ⟨[], calls⟩).1 = false := by
  have key : ∀ l : String,
      (PromptYesNo uni ⟨l :: rest, calls⟩).1 = true ↔ l ∈ yesSpellings := by
    intro l
    rw [← ToLower_yes uni hU l]
    simp [PromptYesNo, nextInput]
  refine ⟨key line, key _, ?_, ?_⟩
  · intro l hl
    have hno : l ∉ yesSpellings := by
      simp only [List.mem_cons, List.mem_singleton, List.not_mem_nil, or_false] at hl
      rcases hl with rfl | rfl | rfl | rfl | rfl <;> decide
    cases h : (PromptYesNo uni ⟨l :: rest, calls⟩).1 with
    | false => rfl
    | true => exact absurd ((key l).1 h) hno
  · simp [PromptYesNo, nextInput, ToLower]

/-- Witness for C8: with a table that leaves every rune above U+007F alone,
the line "YeS" is accepted, also when it is scanned as "  YeS ". -/
theorem PromptYesNo_iff_witness :
    ((PromptYesNo (fun c => c) ⟨"YeS" :: [], []⟩).1 = true ↔ "YeS" ∈ yesSpellings) ∧
    ((PromptYesNo (fun c => c) ⟨(ReadInput ["  YeS "]).1 :: [], []⟩).1 = true ↔
      (ReadInput ["  YeS "]).1 ∈ yesSpellings) ∧
    (∀ l ∈ ["", "n", "no", "yeah", "ye"],
      (PromptYesNo (fun c => c) ⟨l :: [], []⟩).1 = false) ∧
    (PromptYesNo (fun c => c) ⟨[], []⟩).1 = false :=
  PromptYesNo_iff (fun c => c) (fun _ h => Or.inl h) "YeS" ["  YeS "] [] []

/-! ### Decimal numerals -/

theorem parseDigits_natDigits (fuel : Nat) :
    ∀ (n : Nat) (acc : List Char), n < fuel →
      ∃ k : Nat, ∀ a : Nat,
        parseDigits a (natDigits fuel n acc) = parseDigits (a * 10 ^ k + n) acc := by
  induction fuel with
  | zero => intro n acc h; omega
  | succ fuel ih =>
    intro n acc h
    have hd : (digitChar n).toNat = 48 + n % 10 := digitChar_toNat n
    have hstep : ∀ a : Nat, parseDigits a (digitChar n :: acc) =
        parseDigits (a * 10 + n % 10) acc := by
      intro a
      have h1 : 48 ≤ (digitChar n).toNat ∧ (digitChar n).toNat ≤ 57 := by omega
      have h2 : (digitChar n).toNat - 48 = n % 10 := by omega
      simp only [parseDigits, h1, h2]
      simp
    by_cases h0 : n / 10 = 0
    · refine ⟨1, fun a => ?_⟩
      have hn : n % 10 = n := Nat.mod_eq_of_lt (by omega)
      simp only [natDigits, h0, if_true, hstep, hn, pow_one]
    · have hlt : n / 10 < fuel := by omega
      rcases ih (n / 10) (digitChar n :: acc) hlt with ⟨k, hk⟩
      refine ⟨k + 1, fun a => ?_⟩
      simp only [natDigits, h0, if_false, hk, hstep]
      congr 1
      have := Nat.div_add_mod n 10
      rw [pow_succ]
      nlinarith [this]

theorem natDigits_digits (fuel : Nat) :
    ∀ (n : Nat) (acc : List Char), (∀ c ∈ acc, 48 ≤ c.toNat ∧ c.toNat ≤ 57) →
      ∀ c ∈ natDigits fuel n acc, 48 ≤ c.toNat ∧ c.toNat ≤ 57 := by
  induction fuel with
  | zero => intro n acc h c hc; exact h c (by simpa [natDigits] using hc)
  | succ fuel ih =>
    intro n acc h
    have hd : (digitChar n).toNat = 48 + n % 10 := digitChar_toNat n
    have hacc : ∀ c ∈ digitChar n :: acc, 48 ≤ c.toNat ∧ c.toNat ≤ 57 := by
      intro c hc
      rcases List.mem_cons.1 hc with rfl | hc
      · omega
      · exact h c hc
    by_cases h0 : n / 10 = 0
    · simpa only [natDigits, h0, if_true] using hacc
    · simpa only [natDigits, h0, if_false] using ih (n / 10) (digitChar n :: acc) hacc

theorem natDigits_cons (fuel : Nat) :
    ∀ (n : Nat) (acc : List Char), ∃ c tl, natDigits (fuel + 1) n acc = c :: tl := by
  induction fuel with
  | zero =>
    intro n acc
    by_cases h0 : n / 10 = 0
    · exact ⟨digitChar n, acc, by simp only [natDigits, h0, if_true]⟩
    · exact ⟨digitChar n, acc, by simp only [natDigits, h0, if_false]⟩
  | succ fuel ih =>
    intro n acc
    by_cases h0 : n / 10 = 0
    · exact ⟨digitChar n, acc, by simp only [natDigits, h0, if_true]⟩
    · rcases ih (n / 10) (digitChar n :: acc) with ⟨c, tl, h⟩
      exact ⟨c, tl, by rw [← h]; simp only [natDigits, h0, if_false]⟩

theorem Atoi_Itoa (n : Nat) (hn : n < 2 ^ 63) : Atoi (Itoa (n : Int)) = some (n : Int) := by
  have hneg : ¬ ((n : Int) < 0) := by omega
  rcases natDigits_cons n n [] with ⟨c, tl, hct⟩
  have hall := natDigits_digits (n + 1) n [] (by simp)
  rw [hct] at hall
  have hc := hall c (List.mem_cons_self _ _)
  have hm : c ≠ '-' := by
    intro h
    rw [h] at hc
    revert hc
    decide
  have hp : c ≠ '+' := by
    intro h
    rw [h] at hc
    revert hc
    decide
  rcases parseDigits_natDigits (n + 1) n [] (Nat.lt_succ_self n) with ⟨k, hk⟩
  have hparse : parseDigits 0 (c :: tl) = some n := by
    rw [← hct, hk 0]
    simp [parseDigits]
  have hn2 : n < 9223372036854775808 := by simpa using hn
  simp [Atoi, Itoa, hneg, hct, hm, hp, atoiDigits, hparse, hn2]

/-! ### The machine name -/

theorem Itoa_nat_data (n : Nat) : (Itoa (n : Int)).data = natDigits (n + 1) n [] := by
  have hneg : ¬ ((n : Int) < 0) := by omega
  simp [Itoa, hneg]

theorem sanitize_char (uni : Char → Char) (hU : TableStaysAbove uni) (c : Char) :
    toLowerRune uni (if c = ' ' then '-' else c) ≠ ' ' ∧
    ¬ (65 ≤ (toLowerRune uni (if c = ' ' then '-' else c)).toNat ∧
       (toLowerRune uni (if c = ' ' then '-' else c)).toNat ≤ 90) := by
  by_cases hc : c.toNat < 128
  · have h := ascii_cases (fun c =>
      lowerASCII (if c = ' ' then '-' else c) ≠ ' ' ∧
      ¬ (65 ≤ (lowerASCII (if c = ' ' then '-' else c)).toNat ∧
         (lowerASCII (if c = ' ' then '-' else c)).toNat ≤ 90)) sanitize_ascii c hc
    have hg : (if c = ' ' then '-' else c).toNat < 128 := by
      by_cases hs : c = ' '
      · simp only [hs, if_true]; decide
      · simpa only [hs, if_false] using hc
    simpa only [toLowerRune, hg, if_true] using h
  · have hge : 128 ≤ c.toNat := Nat.le_of_not_lt hc
    have hs : c ≠ ' ' := by
      intro h
      rw [h] at hge
      revert hge
      decide
    simp only [hs, if_false, toLowerRune, hc]
    rcases hU c hge with h1 | h1 | h1
    · constructor
      · intro h
        rw [h] at h1
        revert h1
        decide
      · omega
    · rw [h1]; decide
    · rw [h1]; decide

/-- C5. `getVMName` returns the lower-cased line with spaces replaced by
hyphens, then "-" and the decimal form of the draw `r = rnd % 10000`; the
result has no space and no upper-case ASCII letter, and its numeric suffix
parses back to `r`, which is below 10000. -/
theorem getVMName_spec (uni : Char → Char) (hU : TableStaysAbove uni) (rnd : Nat) (s : String)
    (rest : List String) (calls : List (List String)) :
    (getVMName uni rnd ⟨s :: rest, calls⟩).1 =
      ToLower uni (replaceSpaces s) ++ "-" ++ Itoa ((rnd % 10000 : Nat) : Int) ∧
    (∀ ch ∈ (getVMName uni rnd ⟨s :: rest, calls⟩).1.data,
      ch ≠ ' ' ∧ ¬ (65 ≤ ch.toNat ∧ ch.toNat ≤ 90)) ∧
    Atoi (Itoa ((rnd % 10000 : Nat) : Int)) = some ((rnd % 10000 : Nat) : Int) ∧
    rnd % 10000 < 10000 ∧
    (getVMName uni rnd ⟨"test vm" :: rest, calls⟩).1 =
      "test-vm-" ++ Itoa ((rnd % 10000 : Nat) : Int) ∧
    (getVMName uni rnd ⟨"TestVM" :: rest, calls⟩).1 =
      "testvm-" ++ Itoa ((rnd % 10000 : Nat) : Int) := by
  have hr : rnd % 10000 < 10000 := Nat.mod_lt _ (by decide)
  refine ⟨rfl, ?_, Atoi_Itoa _ (lt_trans hr (by decide)), hr, ?_, ?_⟩
  · intro ch hch
    have hdata : (getVMName uni rnd ⟨s :: rest, calls⟩).1.data =
        (s.data.map fun c => toLowerRune uni (if c = ' ' then '-' else c)) ++
          ('-' :: natDigits (rnd % 10000 + 1) (rnd % 10000) []) := by
      simp [getVMName, nextInput, ToLower, replaceSpaces, String.data_append, Itoa_nat_data]
      rfl
    rw [hdata] at hch
    rcases List.mem_append.1 hch with h | h
    · rcases List.mem_map.1 h with ⟨c, _, rfl⟩
      exact sanitize_char uni hU c
    · rcases List.mem_cons.1 h with rfl | h
      · decide
      · have hd := natDigits_digits (rnd % 10000 + 1) (rnd % 10000) [] (by simp) ch h
        constructor
        · intro h2
          rw [h2] at hd
          revert hd
          decide
        · omega
  · rfl
  · rfl

/-- Witness for C5: the table leaves runes above U+007F alone, the line is
"Test VM" and the raw draw 123456. -/
theorem getVMName_spec_witness :
    (getVMName (fun c => c) 123456 ⟨"Test VM" :: [], []⟩).1 =
      ToLower (fun c => c) (replaceSpaces "Test VM") ++ "-" ++
        Itoa ((123456 % 10000 : Nat) : Int) ∧
    (∀ ch ∈ (getVMName (fun c => c) 123456 ⟨"Test VM" :: [], []⟩).1.data,
      ch ≠ ' ' ∧ ¬ (65 ≤ ch.toNat ∧ ch.toNat ≤ 90)) ∧
    Atoi (Itoa ((123456 % 10000 : Nat) : Int)) = some ((123456 % 10000 : Nat) : Int) ∧
    123456 % 10000 < 10000 ∧
    (getVMName (fun c => c) 123456 ⟨"test vm" :: [], []⟩).1 =
      "test-vm-" ++ Itoa ((123456 % 10000 : Nat) : Int) ∧
    (getVMName (fun c => c) 123456 ⟨"TestVM" :: [], []⟩).1 =
      "testvm-" ++ Itoa ((123456 % 10000 : Nat) : Int) :=
  getVMName_spec (fun c => c) (fun _ h => Or.inl h) 123456 "Test VM" [] []

/-! ### Choosing the class of machine -/

theorem chooseVMType_reject (fuel : Nat) (x : String) (rest : List String)
    (calls : List (List String)) (h : Atoi x ≠ some 1 ∧ Atoi x ≠ some 2) :
    chooseVMType (fuel + 1) ⟨x :: rest, calls⟩ = chooseVMType fuel ⟨rest, calls⟩ := by
  cases hx : Atoi x with
  | none => simp [chooseVMType, nextInput, hx]
  | some u =>
    have h1 : u ≠ 1 := fun e => h.1 (by rw [hx, e])
    have h2 : u ≠ 2 := fun e => h.2 (by rw [hx, e])
    simp [chooseVMType, nextInput, hx, h1, h2]

/-- C6 as amended. A line is accepted when `strconv.Atoi` parses it to 1 or
2; lines that do not parse to 1 or 2 are skipped, and `chooseVMType` returns
the value of the first accepted line, leaving the lines after it unread. -/
theorem chooseVMType_first_accepted (pre : List String) (line : String) (rest : List String)
    (calls : List (List String)) (v : Int) (fuel : Nat)
    (hpre : ∀ x ∈ pre, Atoi x ≠ some 1 ∧ Atoi x ≠ some 2)
    (hline : Atoi line = some v) (hv : v = 1 ∨ v = 2) (hfuel : pre.length < fuel) :
    chooseVMType fuel ⟨pre ++ line :: rest, calls⟩ = .ok (v, ⟨rest, calls⟩) := by
  induction pre generalizing fuel with
  | nil =>
    cases fuel with
    | zero => simp at hfuel
    | succ fuel => simp [chooseVMType, nextInput, hline, hv]
  | cons x pre ih =>
    cases fuel with
    | zero => simp at hfuel
    | succ fuel =>
      have hx := hpre x (List.mem_cons_self _ _)
      have hrest : ∀ y ∈ pre, Atoi y ≠ some 1 ∧ Atoi y ≠ some 2 :=
        fun y hy => hpre y (List.mem_cons_of_mem _ hy)
      have hlen : pre.length < fuel := by simpa using hfuel
      rw [List.cons_append, chooseVMType_reject fuel x _ calls hx]
      exact ih fuel hrest hlen

/-- Witness for C6 as amended: the inputs "3", "1" of `TestChooseVMType`. -/
theorem chooseVMType_first_accepted_witness :
    chooseVMType 2 ⟨["3"] ++ "1" :: [], []⟩ = .ok (1, ⟨[], []⟩) :=
  chooseVMType_first_accepted ["3"] "1" [] [] 1 2 (by decide) (by decide) (by decide)
    (by decide)

/-- Counterexample to C6 as stated: the line "01" is neither "1" nor "2", yet
`chooseVMType` returns 1 on it and leaves the following line "2" unread. -/
theorem chooseVMType_leading_zero :
    "01" ≠ "1" ∧ "01" ≠ "2" ∧
    chooseVMType 1 ⟨["01", "2"], []⟩ = .ok (1, ⟨["2"], []⟩) := by
  refine ⟨by decide, by decide, ?_⟩
  rfl

/-! ### The creation command -/

theorem HasPrefix_append_self (p x : String) : HasPrefix (p ++ x) p = true := by
  simp [HasPrefix, String.data_append, List.isPrefixOf_iff_prefix]

theorem HasPrefix_append_false (p q x : String) (h1 : HasPrefix q p = false)
    (h2 : HasPrefix p q = false) : HasPrefix (q ++ x) p = false := by
  cases hh : HasPrefix (q ++ x) p with
  | false => rfl
  | true =>
    exfalso
    simp only [HasPrefix, String.data_append, List.isPrefixOf_iff_prefix] at hh
    have hq : q.data <+: q.data ++ x.data := List.prefix_append _ _
    rcases List.prefix_or_prefix_of_prefix hh hq with h | h
    · have : HasPrefix q p = true := by
        simpa [HasPrefix, List.isPrefixOf_iff_prefix] using h
      rw [h1] at this
      cases this
    · have : HasPrefix p q = true := by
        simpa [HasPrefix, List.isPrefixOf_iff_prefix] using h
      rw [h2] at this
      cases this

theorem HasPrefix_flag (p q : String) (hp : p ∈ flagPrefixes) (hq : q ∈ flagPrefixes)
    (x : String) : HasPrefix (q ++ x) p = decide (p = q) := by
  by_cases h : p = q
  · subst h
    simp [HasPrefix_append_self]
  · have key : ∀ p ∈ flagPrefixes, ∀ q ∈ flagPrefixes, p ≠ q →
        HasPrefix q p = false ∧ HasPrefix p q = false := by decide
    have hk := key p hp q hq h
    simp [h, HasPrefix_append_false p q x hk.1 hk.2]

theorem flag_append_ne_fixed (q f x : String) (hq : q ∈ flagPrefixes) (hf : f ∈ fixedFlags) :
    q ++ x ≠ f := by
  intro h
  have key : ∀ q ∈ flagPrefixes, ∀ f ∈ fixedFlags, HasPrefix f q = false := by decide
  have h1 := key q hq f hf
  rw [← h, HasPrefix_append_self] at h1
  cases h1

theorem createVMArgs_eq (c : VMConfig) :
    createVMArgs c =
      ["compute", "instances", "create", c.Name,
       "--image-family=" ++ c.ImageFamily,
       "--image-project=" ++ c.ImageProject,
       "--machine-type=" ++ c.MachineType,
       "--boot-disk-size=" ++ (Itoa c.DiskSize ++ "GB"),
       "--zone=" ++ c.Zone,
       "--shielded-secure-boot", "--shielded-vtpm", "--shielded-integrity-monitoring"] ++
      (if c.IsFreeVM then ["--provisioning-model=STANDARD"] else []) := by
  cases h : c.IsFreeVM <;> simp [createVMArgs, h, String.append_assoc]

theorem HasPrefix_closed : ∀ p ∈ flagPrefixes,
    HasPrefix "compute" p = false ∧ HasPrefix "instances" p = false ∧
    HasPrefix "create" p = false ∧ HasPrefix "--shielded-secure-boot" p = false ∧
    HasPrefix "--shielded-vtpm" p = false ∧
    HasPrefix "--shielded-integrity-monitoring" p = false ∧
    HasPrefix "--provisioning-model=STANDARD" p = false := by decide

theorem createVMArgs_prefix_count (c : VMConfig)
    (hname : ∀ p ∈ flagPrefixes, HasPrefix c.Name p = false) :
    ∀ p ∈ flagPrefixes, (createVMArgs c).countP (fun a => HasPrefix a p) = 1 := by
  intro p hp
  have e1 := HasPrefix_flag p "--image-family=" hp (by decide) c.ImageFamily
  have e2 := HasPrefix_flag p "--image-project=" hp (by decide) c.ImageProject
  have e3 := HasPrefix_flag p "--machine-type=" hp (by decide) c.MachineType
  have e4 := HasPrefix_flag p "--boot-disk-size=" hp (by decide) (Itoa c.DiskSize ++ "GB")
  have e5 := HasPrefix_flag p "--zone=" hp (by decide) c.Zone
  have hn := hname p hp
  obtain ⟨k1, k2, k3, k4, k5, k6, k7⟩ := HasPrefix_closed p hp
  rw [createVMArgs_eq]
  cases c.IsFreeVM <;>
    simp only [List.countP_cons, List.countP_nil, List.cons_append, List.nil_append,
      if_true, if_false, e1, e2, e3, e4, e5, hn, k1, k2, k3, k4, k5, k6, k7] <;>
    (simp only [flagPrefixes, List.mem_cons, List.mem_singleton, List.not_mem_nil,
        or_false] at hp
     rcases hp with rfl | rfl | rfl | rfl | rfl <;> decide)

theorem createVMArgs_disk_suffix (c : VMConfig)
    (hname : ∀ p ∈ flagPrefixes, HasPrefix c.Name p = false) :
    ∀ a ∈ createVMArgs c, HasPrefix a "--boot-disk-size=" = true → HasSuffix a "GB" = true := by
  have key : ∀ q ∈ flagPrefixes, q ≠ "--boot-disk-size=" →
      ∀ x : String, HasPrefix (q ++ x) "--boot-disk-size=" = false := by
    intro q hq hne x
    rw [HasPrefix_flag "--boot-disk-size=" q (by decide) hq x]
    simpa using fun h => hne h.symm
  obtain ⟨k1, k2, k3, k4, k5, k6, k7⟩ := HasPrefix_closed "--boot-disk-size=" (by decide)
  have hn := hname "--boot-disk-size=" (by decide)
  have e1 := key "--image-family=" (by decide) (by decide) c.ImageFamily
  have e2 := key "--image-project=" (by decide) (by decide) c.ImageProject
  have e3 := key "--machine-type=" (by decide) (by decide) c.MachineType
  have e5 := key "--zone=" (by decide) (by decide) c.Zone
  have hGB : HasSuffix ("--boot-disk-size=" ++ (Itoa c.DiskSize ++ "GB")) "GB" = true := by
    have hd : ("GB" : String).data = ['G', 'B'] := rfl
    simp [HasSuffix, String.data_append, hd, List.isPrefixOf]
  rw [createVMArgs_eq]
  cases c.IsFreeVM <;>
    simp only [List.cons_append, List.nil_append, List.forall_mem_cons, if_true, if_false,
      k1, k2, k3, k4, k5, k6, k7, hn, e1, e2, e3, e5, hGB, Bool.false_eq_true,
      false_implies, implies_true, true_and, and_true, List.not_mem_nil]

theorem createVMArgs_fixed_count (c : VMConfig) (hfixed : c.Name ∉ fixedFlags) :
    ∀ f ∈ ["--shielded-secure-boot", "--shielded-vtpm", "--shielded-integrity-monitoring"],
      (createVMArgs c).count f = 1 := by
  intro f hf
  have hf3 : f ∈ fixedFlags := by
    simp only [List.mem_cons, List.mem_singleton, List.not_mem_nil, or_false] at hf
    rcases hf with rfl | rfl | rfl <;> decide
  have n1 : ("--image-family=" ++ c.ImageFamily == f) = false :=
    beq_false_of_ne (flag_append_ne_fixed _ f _ (by decide) hf3)
  have n2 : ("--image-project=" ++ c.ImageProject == f) = false :=
    beq_false_of_ne (flag_append_ne_fixed _ f _ (by decide) hf3)
  have n3 : ("--machine-type=" ++ c.MachineType == f) = false :=
    beq_false_of_ne (flag_append_ne_fixed _ f _ (by decide) hf3)
  have n4 : ("--boot-disk-size=" ++ (Itoa c.DiskSize ++ "GB") == f) = false :=
    beq_false_of_ne (flag_append_ne_fixed _ f _ (by decide) hf3)
  have n5 : ("--zone=" ++ c.Zone == f) = false :=
    beq_false_of_ne (flag_append_ne_fixed _ f _ (by decide) hf3)
  have nn : (c.Name == f) = false := beq_false_of_ne (fun h => hfixed (h ▸ hf3))
  rw [createVMArgs_eq]
  simp only [List.mem_cons, List.mem_singleton, List.not_mem_nil, or_false] at hf
  cases c.IsFreeVM <;>
    simp only [List.count_cons, List.count_nil, List.cons_append, List.nil_append,
      if_true, if_false, n1, n2, n3, n4, n5, nn, Bool.false_eq_true] <;>
    (rcases hf with rfl | rfl | rfl <;> decide)

theorem createVMArgs_provisioning (c : VMConfig) (hfixed : c.Name ∉ fixedFlags) :
    "--provisioning-model=STANDARD" ∈ createVMArgs c ↔ c.IsFreeVM = true := by
  have hf4 : "--provisioning-model=STANDARD" ∈ fixedFlags := by decide
  have n1 := (flag_append_ne_fixed "--image-family=" _ c.ImageFamily (by decide) hf4).symm
  have n2 := (flag_append_ne_fixed "--image-project=" _ c.ImageProject (by decide) hf4).symm
  have n3 := (flag_append_ne_fixed "--machine-type=" _ c.MachineType (by decide) hf4).symm
  have n4 := (flag_append_ne_fixed "--boot-disk-size=" _ (Itoa c.DiskSize ++ "GB")
    (by decide) hf4).symm
  have n5 := (flag_append_ne_fixed "--zone=" _ c.Zone (by decide) hf4).symm
  have nn : "--provisioning-model=STANDARD" ≠ c.Name := fun h => hfixed (h ▸ hf4)
  have m1 : "--provisioning-model=STANDARD" ≠ "compute" := by decide
  have m2 : "--provisioning-model=STANDARD" ≠ "instances" := by decide
  have m3 : "--provisioning-model=STANDARD" ≠ "create" := by decide
  have m4 : "--provisioning-model=STANDARD" ≠ "--shielded-secure-boot" := by decide
  have m5 : "--provisioning-model=STANDARD" ≠ "--shielded-vtpm" := by decide
  have m6 : "--provisioning-model=STANDARD" ≠ "--shielded-integrity-monitoring" := by decide
  rw [createVMArgs_eq]
  cases c.IsFreeVM <;>
    simp only [List.cons_append, List.nil_append, List.mem_cons, List.mem_singleton,
      List.not_mem_nil, if_true, if_false, n1, n2, n3, n4, n5, nn, m1, m2, m3, m4, m5, m6,
      false_or, or_false, Bool.false_eq_true]

/-- C1 as amended. When the name does not itself start with one of the five
flag prefixes and is not one of the four fixed flags, the argument list holds
exactly one argument with each of the five prefixes, the one with the disk
size ends in "GB", each of the three shielded-VM flags occurs exactly once, and
the provisioning-model flag is present exactly for a free-tier configuration. -/
theorem createVMArgs_flags (c : VMConfig)
    (hname : ∀ p ∈ flagPrefixes, HasPrefix c.Name p = false)
    (hfixed : c.Name ∉ fixedFlags) :
    (∀ p ∈ flagPrefixes, (createVMArgs c).countP (fun a => HasPrefix a p) = 1) ∧
    (∀ a ∈ createVMArgs c, HasPrefix a "--boot-disk-size=" = true → HasSuffix a "GB" = true) ∧
    (∀ f ∈ ["--shielded-secure-boot", "--shielded-vtpm", "--shielded-integrity-monitoring"],
      (createVMArgs c).count f = 1) ∧
    ("--provisioning-model=STANDARD" ∈ createVMArgs c ↔ c.IsFreeVM = true) :=
  ⟨createVMArgs_prefix_count c hname, createVMArgs_disk_suffix c hname,
    createVMArgs_fixed_count c hfixed, createVMArgs_provisioning c hfixed⟩

/-- Witness for C1 as amended: the free-tier configuration of `TestCreateVM`. -/
theorem createVMArgs_flags_witness :
    (∀ p ∈ flagPrefixes,
      (createVMArgs ⟨"test-vm", "us-central1-a", "e2-micro", "debian-11", "debian-cloud",
        30, true⟩).countP (fun a => HasPrefix a p) = 1) ∧
    (∀ a ∈ createVMArgs ⟨"test-vm", "us-central1-a", "e2-micro", "debian-11", "debian-cloud",
        30, true⟩, HasPrefix a "--boot-disk-size=" = true → HasSuffix a "GB" = true) ∧
    (∀ f ∈ ["--shielded-secure-boot", "--shielded-vtpm", "--shielded-integrity-monitoring"],
      (createVMArgs ⟨"test-vm", "us-central1-a", "e2-micro", "debian-11", "debian-cloud",
        30, true⟩).count f = 1) ∧
    ("--provisioning-model=STANDARD" ∈
        createVMArgs ⟨"test-vm", "us-central1-a", "e2-micro", "debian-11", "debian-cloud",
          30, true⟩ ↔
      (⟨"test-vm", "us-central1-a", "e2-micro", "debian-11", "debian-cloud", 30, true⟩ :
        VMConfig).IsFreeVM = true) :=
  createVMArgs_flags ⟨"test-vm", "us-central1-a", "e2-micro", "debian-11", "debian-cloud",
    30, true⟩ (by decide) (by decide)

/-- Counterexample to C1 as stated: a configuration whose name is "--zone=x"
gives two arguments that start with "--zone=", and one whose name is
"--provisioning-model=STANDARD" carries that flag without being free-tier. -/
theorem createVMArgs_name_is_flag :
    (createVMArgs ⟨"--zone=x", "us-central1-a", "e2-micro", "debian-11", "debian-cloud",
      30, true⟩).countP (fun a => HasPrefix a "--zone=") = 2 ∧
    "--provisioning-model=STANDARD" ∈
      createVMArgs ⟨"--provisioning-model=STANDARD", "us-central1-a", "e2-standard-2",
        "ubuntu-2204-lts", "ubuntu-os-cloud", 200, false⟩ := by
  decide

/-! ### Session bootstrap -/

/-- Whenever `init` returns, the package variable `Config` holds what it held
on entry. -/
theorem init_Config_unchanged (uni : Char → Char) (host : Host) (tool : GCloud)
    (Config cfg : CloudConfig) (w w1 : World)
    (h : init uni host tool Config w = .ok (cfg, w1)) : cfg = Config := by
  cases hl : host.lookPathErr with
  | some e => simp [init, hl] at h
  | none =>
    rcases hcr : checkRequirements uni tool (nextInput w).2 with ⟨met, w2⟩
    cases met with
    | false => simp [init, hl, hcr] at h
    | true =>
      cases hs1 : setupGCloudConfig host tool w2 with
      | error e => simp [init, hl, hcr, hs1] at h
      | ok p =>
        rcases p with ⟨config, w3⟩
        by_cases hz : config.Zone = ""
        · rcases hi : initializeGCloud host w3 with ⟨err, w4⟩
          cases err with
          | some e => simp [init, hl, hcr, hs1, hz, hi] at h
          | none =>
            cases hs2 : setupGCloudConfig host tool w4 with
            | error e => simp [init, hl, hcr, hs1, hz, hi, hs2] at h
            | ok p2 =>
              rcases p2 with ⟨config2, w5⟩
              by_cases hz2 : config2.Zone = ""
              · simp [init, hl, hcr, hs1, hz, hi, hs2, hz2] at h
              · simp [init, hl, hcr, hs1, hz, hi, hs2, hz2] at h
                exact h.1.symm
        · simp [init, hl, hcr, hs1, hz] at h
          exact h.1.symm

/-- C3 on a concrete run: the tool reports project `demo`, zone
`us-central1-a` and region `us-central1`, the user presses Enter and answers
"y"; `init` returns without a fatal exit, yet `Config`, which starts as the
zero value, still has the empty zone, region and project, and this is the
zone `VM` then works with. -/
theorem init_leaves_Config_empty :
    (setupGCloudConfig readyHost reportingTool ⟨[], []⟩).map Prod.fst =
      .ok { Project := "demo", Zone := "us-central1-a", Region := "us-central1" } ∧
    (init (fun c => c) readyHost reportingTool
        { Project := "", Zone := "", Region := "" } ⟨["", "y"], []⟩).map Prod.fst =
      .ok { Project := "", Zone := "", Region := "" } := by
  constructor <;> rfl

end GCloudBot
